import Mathlib

/-!
Shallow embedding of the storage and prediction layer of the
Criminal-Management repository (`server/storage.ts`, SQL schema), together
with theorems checking the natural-language specification against it.

Conventions of the embedding:
* the Prisma-backed tables become lists of records inside a `StoreState`;
  each store operation is a pure function on that state;
* a `try { ... } catch { ... }` around a backend call is modelled by an
  explicit `io : Bool` flag saying whether the backend signals an I/O
  failure on this call (`true` = the call throws a non-not-found error);
* timestamps are natural numbers, the JS `number` crime rate is `ℚ`;
* the random inputs of `generateFirNumber` (current year, `Math.random()`
  outcome) are explicit parameters.
-/

namespace CriminalManagement

/-! ## Enumerations (`shared/schema.ts`, SQL CHECK constraints) -/

inductive Gender
  | male
  | female
  | other
deriving DecidableEq, Repr

inductive CaseStatus
  | open_
  | pending
  | closed
deriving DecidableEq, Repr

/-- The string stored in the `case_status` column for each enum value. -/
def caseStatusStr : CaseStatus → String
  | .open_ => "open"
  | .pending => "pending"
  | .closed => "closed"

/-! ## Records (`criminal_records`, `fir_records` tables) -/

structure CriminalRecord where
  id : String
  name : String
  age : Nat
  gender : Gender
  crimeType : String
  firNumber : Option String
  caseStatus : CaseStatus
  arrestDate : Option Nat
  address : Option String
  photo : Option String
  createdAt : Nat
  updatedAt : Nat
deriving DecidableEq, Repr

structure FirRecord where
  id : String
  firNumber : String
  criminalId : Option String
  firDate : Nat
  description : String
  createdAt : Nat
  updatedAt : Nat
deriving DecidableEq, Repr

/-- The live record sets behind the Prisma client. -/
structure StoreState where
  criminals : List CriminalRecord
  firs : List FirRecord
deriving DecidableEq, Repr

/-! ## Statistics (`DatabaseStorage.getStatistics`) -/

/-- `prisma.<table>.groupBy` with a `_count` aggregate: one `(value, count)`
group for each distinct key occurring in `keys`. -/
def groupByCounts {α : Type} [DecidableEq α] (keys : List α) : List (α × Nat) :=
  keys.dedup.map (fun k => (k, keys.count k))

structure Statistics where
  totalCriminals : Nat
  activeFirs : Nat
  solvedCases : Nat
  pendingCases : Nat
  crimeTypeDistribution : List (String × Nat)
  caseStatusDistribution : List (CaseStatus × Nat)
deriving DecidableEq, Repr

def getStatistics (s : StoreState) : Statistics :=
  { totalCriminals := s.criminals.length
    activeFirs := s.firs.length
    solvedCases := (s.criminals.filter (fun c => c.caseStatus == CaseStatus.closed)).length
    pendingCases := (s.criminals.filter (fun c => c.caseStatus == CaseStatus.pending)).length
    crimeTypeDistribution := groupByCounts (s.criminals.map (fun c => c.crimeType))
    caseStatusDistribution := groupByCounts (s.criminals.map (fun c => c.caseStatus)) }

/-! ## Search (`DatabaseStorage.searchCriminalRecords`) -/

/-- Lower-cased character list of a string (JS `toLowerCase` / Prisma
`mode: 'insensitive'`). -/
def lowerStr (s : String) : List Char := s.data.map Char.toLower

/-- Prisma `{ contains: q, mode: 'insensitive' }` on a text column. -/
def containsCI (hay q : String) : Bool := decide (lowerStr q <:+: lowerStr hay)

/-- The `filters` argument of `searchCriminalRecords`; route handlers pass
the `crimeType` and `status` query parameters through unchanged. -/
structure CriminalFilters where
  crimeType : Option String := none
  status : Option String := none

/-- The `where` clause built by `searchCriminalRecords`, as a predicate on a
row: the `OR` of the two case-insensitive `contains` conditions is present
exactly when `query` is truthy (non-empty), and each filter contributes an
equality condition exactly when its value is truthy (present and
non-empty).  A `contains` condition on the nullable `firNumber` column does
not match a `NULL` cell. -/
def matchesCriminalWhere (query : String) (f : CriminalFilters) (r : CriminalRecord) : Bool :=
  (if query.isEmpty then true
   else
     containsCI r.name query ||
       (match r.firNumber with
        | some fn => containsCI fn query
        | none => false)) &&
  (match f.crimeType with
   | some ct => if ct.isEmpty then true else r.crimeType == ct
   | none => true) &&
  (match f.status with
   | some st => if st.isEmpty then true else caseStatusStr r.caseStatus == st
   | none => true)

/-- `orderBy: { createdAt: 'desc' }`. -/
def createdDesc (a b : CriminalRecord) : Prop := b.createdAt ≤ a.createdAt

instance : DecidableRel createdDesc := fun a b =>
  inferInstanceAs (Decidable (b.createdAt ≤ a.createdAt))

instance : IsTotal CriminalRecord createdDesc :=
  ⟨fun a b => Nat.le_total b.createdAt a.createdAt⟩

instance : IsTrans CriminalRecord createdDesc :=
  ⟨fun _ _ _ h₁ h₂ => Nat.le_trans h₂ h₁⟩

def searchCriminalRecords (s : StoreState) (query : String) (f : CriminalFilters) :
    List CriminalRecord :=
  List.insertionSort createdDesc (s.criminals.filter (matchesCriminalWhere query f))

/-! ## FIR-number generation (`DatabaseStorage.generateFirNumber`)

`rnd` models the value `Math.floor(Math.random() * 900000)`, hence
`rnd < 900000`; the generated six-digit part is `rnd + 100000`. -/

def digitChar (d : Nat) : Char := Char.ofNat (48 + d)

/-- Decimal rendering of a natural number (the `${year}` / `${random}`
template-literal interpolation). -/
def natToDecimal (n : Nat) : List Char :=
  if _h : n < 10 then [digitChar n]
  else natToDecimal (n / 10) ++ [digitChar (n % 10)]
decreasing_by exact Nat.div_lt_self (by omega) (by omega)

def generateFirNumber (year rnd : Nat) : String :=
  String.mk (('F' :: 'I' :: 'R' :: '-' :: natToDecimal year) ++
    '-' :: natToDecimal (rnd + 100000))

/-- Decides the regular expression `FIR-\d\x7b4\x7d-\d\x7b6\x7d` anchored at
both ends. -/
def isFirPattern (l : List Char) : Bool :=
  match l with
  | 'F' :: 'I' :: 'R' :: '-' :: c1 :: c2 :: c3 :: c4 :: '-' :: rest =>
      (c1.isDigit && c2.isDigit && c3.isDigit && c4.isDigit) &&
        (rest.length == 6 && rest.all Char.isDigit)
  | _ => false

/-! ## Create / update / delete on criminal records -/

/-- A validated draft (`insertCriminalRecordSchema`). -/
structure InsertCriminalRecord where
  name : String
  age : Nat
  gender : Gender
  crimeType : String
  firNumber : Option String := none
  caseStatus : CaseStatus := .open_
  arrestDate : Option Nat := none
  address : Option String := none
  photo : Option String := none

/-- `createCriminalRecord`: JS `record.firNumber || generateFirNumber()`
falls back to the generator when the draft value is absent or empty (both
are falsy); `newId`, `year`, `rnd` and `now` make the backend-assigned
values explicit. -/
def createCriminalRecord (s : StoreState) (draft : InsertCriminalRecord)
    (newId : String) (year rnd now : Nat) : CriminalRecord × StoreState :=
  let fn : String :=
    match draft.firNumber with
    | some v => if v.isEmpty then generateFirNumber year rnd else v
    | none => generateFirNumber year rnd
  let record : CriminalRecord :=
    { id := newId
      name := draft.name
      age := draft.age
      gender := draft.gender
      crimeType := draft.crimeType
      firNumber := some fn
      caseStatus := draft.caseStatus
      arrestDate := draft.arrestDate
      address := draft.address
      photo := draft.photo
      createdAt := now
      updatedAt := now }
  (record, { s with criminals := record :: s.criminals })

/-- A `Partial<CriminalRecord>` patch over the updatable columns (the route
layer validates patches against the partial insert schema, so `id` and
`createdAt` never appear). -/
structure CriminalPatch where
  name : Option String := none
  age : Option Nat := none
  gender : Option Gender := none
  crimeType : Option String := none
  firNumber : Option (Option String) := none
  caseStatus : Option CaseStatus := none
  arrestDate : Option (Option Nat) := none
  address : Option (Option String) := none
  photo : Option (Option String) := none

/-- The SQL `UPDATE` applied to one row: supplied columns are overwritten
and the `update_updated_at_column` trigger overwrites `updated_at`. -/
def applyPatch (r : CriminalRecord) (p : CriminalPatch) (now : Nat) : CriminalRecord :=
  { id := r.id
    name := p.name.getD r.name
    age := p.age.getD r.age
    gender := p.gender.getD r.gender
    crimeType := p.crimeType.getD r.crimeType
    firNumber := p.firNumber.getD r.firNumber
    caseStatus := p.caseStatus.getD r.caseStatus
    arrestDate := p.arrestDate.getD r.arrestDate
    address := p.address.getD r.address
    photo := p.photo.getD r.photo
    createdAt := r.createdAt
    updatedAt := now }

/-- `updateCriminalRecord`: `prisma.criminalRecord.update` throws when the
row is missing or the backend fails, and the surrounding `try/catch`
returns `undefined` for every thrown error.  `io = true` means the backend
call fails with an I/O error. -/
def updateCriminalRecord (s : StoreState) (id : String) (p : CriminalPatch)
    (now : Nat) (io : Bool) : Option CriminalRecord × StoreState :=
  if io then (none, s)
  else
    match s.criminals.find? (fun c => c.id == id) with
    | none => (none, s)
    | some r =>
        (some (applyPatch r p now),
         { s with criminals :=
            s.criminals.map (fun c => if c.id == id then applyPatch c p now else c) })

/-- `deleteCriminalRecord`: on success the row is removed and the
`ON DELETE SET NULL` action of `fir_records.criminal_id` nulls every
back-reference to it; a thrown error (missing row or I/O failure) is
caught and reported as `false`. -/
def deleteCriminalRecord (s : StoreState) (id : String) (io : Bool) :
    Bool × StoreState :=
  if io then (false, s)
  else if s.criminals.any (fun c => c.id == id) then
    (true,
     { criminals := s.criminals.filter (fun c => !(c.id == id))
       firs := s.firs.map (fun f =>
         if f.criminalId == some id then { f with criminalId := none } else f) })
  else (false, s)

/-- `getFirRecord`: `prisma.firRecord.findUnique({ where: { id } })`. -/
def getFirRecord (s : StoreState) (id : String) : Option FirRecord :=
  s.firs.find? (fun f => f.id == id)

/-! ## Risk Classifier Facade (`CrimePredictor`) -/

inductive RiskLevel
  | Low
  | Medium
  | High
  | Critical
deriving DecidableEq, Repr

/-- One parsed row of `crime_data.csv`. -/
structure CrimeData where
  City : String
  State : String
  Population : Nat
  ViolentCrime : Nat
  PropertyCrime : Nat
  Murder : Nat
  Robbery : Nat
  Assault : Nat
  Burglary : Nat
  Theft : Nat
  CrimeRate : ℚ
deriving DecidableEq, Repr

/-- The fitted random-forest classifier, abstracted as a function from a
feature vector to a class label; its behaviour is irrelevant to the
theorems, and that irrelevance is exactly what claim C4 asserts. -/
def ClassifierModel : Type := List ℚ → Nat

/-- The facade's private state: the loaded rows and the trained model. -/
structure CrimePredictor where
  data : List CrimeData
  model : ClassifierModel

def getRiskLevel (crimeRate : ℚ) : RiskLevel :=
  if crimeRate < 300 then .Low
  else if crimeRate < 500 then .Medium
  else if crimeRate < 700 then .High
  else .Critical

structure PredictionResult where
  city : String
  state : String
  crimeRate : ℚ
  riskLevel : RiskLevel
  violentCrime : Nat
  propertyCrime : Nat
deriving DecidableEq, Repr

/-- The projection inside `getAllPredictions` / `getCityPrediction`. -/
def predictionOf (d : CrimeData) : PredictionResult :=
  { city := d.City
    state := d.State
    crimeRate := d.CrimeRate
    riskLevel := getRiskLevel d.CrimeRate
    violentCrime := d.ViolentCrime
    propertyCrime := d.PropertyCrime }

/-- `.sort((a, b) => b.crimeRate - a.crimeRate)`: crime rate descending. -/
def predDesc (a b : PredictionResult) : Prop := b.crimeRate ≤ a.crimeRate

instance : DecidableRel predDesc := fun a b =>
  inferInstanceAs (Decidable (b.crimeRate ≤ a.crimeRate))

instance : IsTotal PredictionResult predDesc := ⟨fun a b => le_total b.crimeRate a.crimeRate⟩

instance : IsTrans PredictionResult predDesc := ⟨fun _ _ _ h₁ h₂ => le_trans h₂ h₁⟩

def getAllPredictions (p : CrimePredictor) : List PredictionResult :=
  List.insertionSort predDesc (p.data.map predictionOf)

def getTopRiskCities (p : CrimePredictor) (limit : Nat) : List PredictionResult :=
  (getAllPredictions p).take limit

def getCityPrediction (p : CrimePredictor) (cityName : String) : Option PredictionResult :=
  (p.data.find? (fun d => lowerStr d.City == lowerStr cityName)).map predictionOf

structure RiskGroup where
  riskLevel : RiskLevel
  count : Nat
  cities : List String
deriving DecidableEq, Repr

/-- The per-bucket city list built by the `forEach` push loop of
`getCrimeDistribution`: the cities of the rows classified at `lvl`, in
dataset order. -/
def citiesAt (p : CrimePredictor) (lvl : RiskLevel) : List String :=
  (p.data.filter (fun d => getRiskLevel d.CrimeRate == lvl)).map (fun d => d.City)

def getCrimeDistribution (p : CrimePredictor) : List RiskGroup :=
  [{ riskLevel := .Low, count := (citiesAt p .Low).length, cities := citiesAt p .Low },
   { riskLevel := .Medium, count := (citiesAt p .Medium).length, cities := citiesAt p .Medium },
   { riskLevel := .High, count := (citiesAt p .High).length, cities := citiesAt p .High },
   { riskLevel := .Critical, count := (citiesAt p .Critical).length, cities := citiesAt p .Critical }]

/-! ## Concrete sample data for the spec's scenarios -/

def crimOpen : CriminalRecord :=
  { id := "c1", name := "John Doe", age := 30, gender := .male, crimeType := "theft"
    firNumber := some "FIR-2024-001001", caseStatus := .open_, arrestDate := none
    address := none, photo := none, createdAt := 1, updatedAt := 1 }

def crimPending : CriminalRecord :=
  { id := "c2", name := "Jane Smith", age := 25, gender := .female, crimeType := "fraud"
    firNumber := some "FIR-2024-001002", caseStatus := .pending, arrestDate := none
    address := none, photo := none, createdAt := 2, updatedAt := 2 }

def crimClosed : CriminalRecord :=
  { id := "c3", name := "Robert Johnson", age := 35, gender := .male, crimeType := "assault"
    firNumber := some "FIR-2024-001003", caseStatus := .closed, arrestDate := none
    address := none, photo := none, createdAt := 3, updatedAt := 3 }

/-- Three criminal records with case statuses open, pending, closed. -/
def statsState : StoreState := { criminals := [crimOpen, crimPending, crimClosed], firs := [] }

/-! ## Facts about `groupByCounts` -/

theorem groupByCounts_sum {α : Type} [DecidableEq α] (l : List α) :
    ((groupByCounts l).map Prod.snd).sum = l.length := by
  simpa [groupByCounts, List.map_map, Function.comp] using
    List.sum_map_count_dedup_eq_length l

theorem groupByCounts_mem {α : Type} [DecidableEq α] (l : List α) (v : α) :
    (∃ c, (v, c) ∈ groupByCounts l) ↔ v ∈ l := by
  constructor
  · rintro ⟨c, hc⟩
    simp only [groupByCounts, List.mem_map] at hc
    obtain ⟨k, hk, he⟩ := hc
    obtain ⟨rfl, -⟩ := Prod.mk.injEq .. ▸ And.intro (congrArg Prod.fst he) (congrArg Prod.snd he)
    exact List.mem_dedup.mp hk
  · intro hv
    exact ⟨l.count v, List.mem_map_of_mem _ (List.mem_dedup.mpr hv)⟩

theorem groupByCounts_keys {α : Type} [DecidableEq α] (l : List α) :
    (groupByCounts l).map Prod.fst = l.dedup := by
  simp only [groupByCounts, List.map_map]
  exact List.map_id _

theorem groupByCounts_pos {α : Type} [DecidableEq α] (l : List α) :
    ∀ pr ∈ groupByCounts l, 0 < pr.2 := by
  intro pr hpr
  simp only [groupByCounts, List.mem_map] at hpr
  obtain ⟨k, hk, rfl⟩ := hpr
  exact List.count_pos_iff.mpr (List.mem_dedup.mp hk)

/-! ## Claim theorems -/

/-- C1: `statistics()` reports `totalCriminals` as the number of criminal
records, `activeFirs` as the number of all FIR records, `solvedCases` as
the number of criminal records whose case status is closed, `pendingCases`
as the number whose case status is pending; over three records with
statuses open, pending, closed it yields `solvedCases = 1`,
`pendingCases = 1`, `totalCriminals = 3`. -/
theorem statistics_counts_c1 :
    (∀ s : StoreState,
      (getStatistics s).totalCriminals = s.criminals.length ∧
      (getStatistics s).activeFirs = s.firs.length ∧
      (getStatistics s).solvedCases =
        s.criminals.countP (fun c => c.caseStatus == CaseStatus.closed) ∧
      (getStatistics s).pendingCases =
        s.criminals.countP (fun c => c.caseStatus == CaseStatus.pending)) ∧
    (getStatistics statsState).solvedCases = 1 ∧
    (getStatistics statsState).pendingCases = 1 ∧
    (getStatistics statsState).totalCriminals = 3 := by
  refine ⟨fun s => ⟨rfl, rfl, ?_, ?_⟩, by decide, by decide, by decide⟩
  · exact (List.countP_eq_length_filter _ _).symm
  · exact (List.countP_eq_length_filter _ _).symm

/-- C5: the counts of `crimeTypeDistribution` and of
`caseStatusDistribution` each sum to `totalCriminals`; each grouping has
exactly one group per distinct value present at least once and no group
with a zero count. -/
theorem statistics_distributions_c5 (s : StoreState) :
    (((getStatistics s).crimeTypeDistribution.map Prod.snd).sum =
        (getStatistics s).totalCriminals) ∧
    (((getStatistics s).caseStatusDistribution.map Prod.snd).sum =
        (getStatistics s).totalCriminals) ∧
    (∀ v : String,
      (∃ c, (v, c) ∈ (getStatistics s).crimeTypeDistribution) ↔
        v ∈ s.criminals.map (fun r => r.crimeType)) ∧
    ((getStatistics s).crimeTypeDistribution.map Prod.fst).Nodup ∧
    (∀ pr ∈ (getStatistics s).crimeTypeDistribution, 0 < pr.2) ∧
    (∀ v : CaseStatus,
      (∃ c, (v, c) ∈ (getStatistics s).caseStatusDistribution) ↔
        v ∈ s.criminals.map (fun r => r.caseStatus)) ∧
    ((getStatistics s).caseStatusDistribution.map Prod.fst).Nodup ∧
    (∀ pr ∈ (getStatistics s).caseStatusDistribution, 0 < pr.2) := by
  refine ⟨?_, ?_, ?_, ?_, ?_, ?_, ?_, ?_⟩
  · simpa [getStatistics] using groupByCounts_sum (s.criminals.map (fun r => r.crimeType))
  · simpa [getStatistics] using groupByCounts_sum (s.criminals.map (fun r => r.caseStatus))
  · exact fun v => groupByCounts_mem _ v
  · simpa [getStatistics, groupByCounts_keys] using
      (s.criminals.map (fun r => r.crimeType)).nodup_dedup
  · exact groupByCounts_pos _
  · exact fun v => groupByCounts_mem _ v
  · simpa [getStatistics, groupByCounts_keys] using
      (s.criminals.map (fun r => r.caseStatus)).nodup_dedup
  · exact groupByCounts_pos _

/-! ## C2: search semantics -/

/-- The retention predicate in the words of spec §4.2, for criminal
records: a non-empty query text must occur case-insensitively in the name
or in the report number (OR among text fields), every supplied non-empty
filter value must match its field (AND between filters), an empty or
absent query text or filter value imposes no constraint. -/
def specSearchPred (query : String) (f : CriminalFilters) (r : CriminalRecord) : Prop :=
  (query ≠ "" →
    containsCI r.name query = true ∨
      ∃ fn, r.firNumber = some fn ∧ containsCI fn query = true) ∧
  (∀ ct, f.crimeType = some ct → ct ≠ "" → r.crimeType = ct) ∧
  (∀ st, f.status = some st → st ≠ "" → caseStatusStr r.caseStatus = st)

/-- C2: `searchCriminalRecords` retains exactly the records accepted by
the spec's predicate: the result is a permutation of the records that pass
the code's `where` clause, and passing the `where` clause is equivalent to
the spec's text-search/filter predicate. -/
theorem search_criminal_c2 (s : StoreState) (query : String) (f : CriminalFilters) :
    (searchCriminalRecords s query f).Perm
      (s.criminals.filter (matchesCriminalWhere query f)) ∧
    (∀ r : CriminalRecord, matchesCriminalWhere query f r = true ↔ specSearchPred query f r) := by
  refine ⟨List.perm_insertionSort _ _, fun r => ?_⟩
  unfold matchesCriminalWhere specSearchPred
  simp only [Bool.and_eq_true, and_assoc]
  refine and_congr ?_ (and_congr ?_ ?_)
  · by_cases hq : query.isEmpty = true
    · have he : query = "" := (String.isEmpty_iff query).mp hq
      subst he
      simp [show ("" : String).isEmpty = true from rfl]
    · have he : query.isEmpty = false := Bool.eq_false_iff.mpr hq
      have hq' : query ≠ "" := fun h => hq ((String.isEmpty_iff query).mpr h)
      cases hfn : r.firNumber <;> simp [he, hq', hfn]
  · cases hct : f.crimeType with
    | none => simp [hct]
    | some ct =>
        by_cases hce : ct.isEmpty = true
        · have he : ct = "" := (String.isEmpty_iff ct).mp hce
          subst he
          simp [hct, show ("" : String).isEmpty = true from rfl]
        · have he : ct.isEmpty = false := Bool.eq_false_iff.mpr hce
          have hce' : ct ≠ "" := fun h => hce ((String.isEmpty_iff ct).mpr h)
          simp [hct, he, hce']
  · cases hst : f.status with
    | none => simp [hst]
    | some st =>
        by_cases hse : st.isEmpty = true
        · have he : st = "" := (String.isEmpty_iff st).mp hse
          subst he
          simp [hst, show ("" : String).isEmpty = true from rfl]
        · have he : st.isEmpty = false := Bool.eq_false_iff.mpr hse
          have hse' : st ≠ "" := fun h => hse ((String.isEmpty_iff st).mpr h)
          simp [hst, he, hse']

/-! ## C4 / C6 / C10: predictor facade -/

theorem citiesAt_spec (p : CrimePredictor) (lvl : RiskLevel) :
    ∀ c ∈ citiesAt p lvl,
      ∃ row, row ∈ p.data ∧ row.City = c ∧ getRiskLevel row.CrimeRate = lvl := by
  intro c hc
  obtain ⟨row, hrow, rfl⟩ := List.mem_map.mp hc
  have hmem := List.mem_of_mem_filter hrow
  have hlvl := List.of_mem_filter hrow
  exact ⟨row, hmem, rfl, by simpa using hlvl⟩

/-- C4: `riskLevel` everywhere in the facade's query results is derived
from the fixed thresholds on the crime rate (`< 300 → Low`, `< 500 →
Medium`, `< 700 → High`, otherwise `Critical`), and no public query method
consults the trained classifier: every query result is unchanged when the
model component is replaced by any other model. -/
theorem risk_threshold_c4 :
    (∀ x : ℚ,
      (x < 300 → getRiskLevel x = RiskLevel.Low) ∧
      (¬x < 300 → x < 500 → getRiskLevel x = RiskLevel.Medium) ∧
      (¬x < 500 → x < 700 → getRiskLevel x = RiskLevel.High) ∧
      (¬x < 700 → getRiskLevel x = RiskLevel.Critical)) ∧
    (∀ (d : List CrimeData) (m₁ m₂ : ClassifierModel),
      getAllPredictions ⟨d, m₁⟩ = getAllPredictions ⟨d, m₂⟩ ∧
      (∀ lim, getTopRiskCities ⟨d, m₁⟩ lim = getTopRiskCities ⟨d, m₂⟩ lim) ∧
      (∀ nm, getCityPrediction ⟨d, m₁⟩ nm = getCityPrediction ⟨d, m₂⟩ nm) ∧
      getCrimeDistribution ⟨d, m₁⟩ = getCrimeDistribution ⟨d, m₂⟩) ∧
    (∀ (p : CrimePredictor) (r : PredictionResult),
      (r ∈ getAllPredictions p → r.riskLevel = getRiskLevel r.crimeRate) ∧
      (∀ lim, r ∈ getTopRiskCities p lim → r.riskLevel = getRiskLevel r.crimeRate) ∧
      (∀ nm, getCityPrediction p nm = some r → r.riskLevel = getRiskLevel r.crimeRate)) ∧
    (∀ (p : CrimePredictor), ∀ g ∈ getCrimeDistribution p, ∀ c ∈ g.cities,
      ∃ row, row ∈ p.data ∧ row.City = c ∧ getRiskLevel row.CrimeRate = g.riskLevel) := by
  refine ⟨?_, ?_, ?_, ?_⟩
  · intro x
    have h35 : ¬x < 500 → ¬x < 300 := fun h hc => h (lt_trans hc (by norm_num))
    have h57 : ¬x < 700 → ¬x < 500 := fun h hc => h (lt_trans hc (by norm_num))
    refine ⟨fun h => ?_, fun h₁ h₂ => ?_, fun h₁ h₂ => ?_, fun h => ?_⟩
    · simp [getRiskLevel, h]
    · simp [getRiskLevel, h₁, h₂]
    · simp [getRiskLevel, h35 h₁, h₁, h₂]
    · simp [getRiskLevel, h35 (h57 h), h57 h, h]
  · intro d m₁ m₂
    exact ⟨rfl, fun _ => rfl, fun _ => rfl, rfl⟩
  · intro p r
    have hall : r ∈ getAllPredictions p → r.riskLevel = getRiskLevel r.crimeRate := by
      intro hr
      rw [getAllPredictions, List.mem_insertionSort] at hr
      obtain ⟨row, -, rfl⟩ := List.mem_map.mp hr
      rfl
    refine ⟨hall, fun lim hr => hall ((List.take_sublist _ _).mem hr), fun nm hr => ?_⟩
    rw [getCityPrediction] at hr
    obtain ⟨row, -, rfl⟩ := Option.map_eq_some'.mp hr
    rfl
  · intro p g hg c hc
    have : g.cities = citiesAt p g.riskLevel := by
      simp only [getCrimeDistribution, List.mem_cons, List.mem_singleton] at hg
      rcases hg with rfl | rfl | rfl | rfl | h
      · rfl
      · rfl
      · rfl
      · rfl
      · cases h
    rw [this] at hc
    exact citiesAt_spec p g.riskLevel c hc

/-- C6: `allPredictions()` is the projection of every dataset row, sorted
by crime rate descending, and `topRiskCities(limit)` is exactly the first
`limit` elements of that sorted sequence; its length is `min limit
(number of rows)` and it stays sorted. -/
theorem top_risk_cities_c6 (d : List CrimeData) (m : ClassifierModel) (lim : Nat) :
    (getAllPredictions ⟨d, m⟩).Perm (d.map predictionOf) ∧
    List.Sorted predDesc (getAllPredictions ⟨d, m⟩) ∧
    getTopRiskCities ⟨d, m⟩ lim = (getAllPredictions ⟨d, m⟩).take lim ∧
    (getTopRiskCities ⟨d, m⟩ lim).length = min lim d.length ∧
    List.Sorted predDesc (getTopRiskCities ⟨d, m⟩ lim) := by
  refine ⟨List.perm_insertionSort _ _, List.sorted_insertionSort _ _, rfl, ?_, ?_⟩
  · rw [getTopRiskCities, List.length_take]
    have : (getAllPredictions ⟨d, m⟩).length = d.length :=
      (List.perm_insertionSort _ _).length_eq.trans (List.length_map _ _)
    rw [this]
  · exact List.Pairwise.sublist (List.take_sublist _ _) (List.sorted_insertionSort _ _)

/-- The four threshold buckets partition the dataset rows. -/
theorem riskLevel_partition (d : List CrimeData) :
    d.countP (fun row => getRiskLevel row.CrimeRate == RiskLevel.Low) +
      d.countP (fun row => getRiskLevel row.CrimeRate == RiskLevel.Medium) +
      d.countP (fun row => getRiskLevel row.CrimeRate == RiskLevel.High) +
      d.countP (fun row => getRiskLevel row.CrimeRate == RiskLevel.Critical) = d.length := by
  induction d with
  | nil => rfl
  | cons row t ih =>
      cases h : getRiskLevel row.CrimeRate <;>
        simp [List.countP_cons, h] <;> omega

/-- C10: `crimeDistribution()` always returns exactly four groups in the
fixed order Low, Medium, High, Critical (zero-occurrence buckets included
with count 0 and an empty city list), each group's count is the length of
its city list and equals the number of rows classified at its level, and
the four counts sum to the number of dataset rows. -/
theorem crime_distribution_c10 (d : List CrimeData) (m : ClassifierModel) :
    (getCrimeDistribution ⟨d, m⟩).length = 4 ∧
    (getCrimeDistribution ⟨d, m⟩).map (fun g => g.riskLevel) =
      [RiskLevel.Low, RiskLevel.Medium, RiskLevel.High, RiskLevel.Critical] ∧
    (∀ g ∈ getCrimeDistribution ⟨d, m⟩, g.count = g.cities.length) ∧
    (∀ g ∈ getCrimeDistribution ⟨d, m⟩,
      g.count = d.countP (fun row => getRiskLevel row.CrimeRate == g.riskLevel)) ∧
    ((getCrimeDistribution ⟨d, m⟩).map (fun g => g.count)).sum = d.length := by
  refine ⟨rfl, rfl, ?_, ?_, ?_⟩
  · intro g hg
    simp only [getCrimeDistribution, List.mem_cons, List.mem_singleton] at hg
    rcases hg with rfl | rfl | rfl | rfl | h
    · rfl
    · rfl
    · rfl
    · rfl
    · cases h
  · intro g hg
    simp only [getCrimeDistribution, List.mem_cons, List.mem_singleton] at hg
    have hlen : ∀ lvl : RiskLevel,
        (citiesAt ⟨d, m⟩ lvl).length =
          d.countP (fun row => getRiskLevel row.CrimeRate == lvl) := by
      intro lvl
      rw [citiesAt, List.length_map, List.countP_eq_length_filter]
    rcases hg with rfl | rfl | rfl | rfl | h
    · exact hlen RiskLevel.Low
    · exact hlen RiskLevel.Medium
    · exact hlen RiskLevel.High
    · exact hlen RiskLevel.Critical
    · cases h
  · have hlen : ∀ lvl : RiskLevel,
        (citiesAt ⟨d, m⟩ lvl).length =
          d.countP (fun row => getRiskLevel row.CrimeRate == lvl) := by
      intro lvl
      rw [citiesAt, List.length_map, List.countP_eq_length_filter]
    have hpart := riskLevel_partition d
    simp only [getCrimeDistribution, List.map_cons, List.map_nil, List.sum_cons,
      List.sum_nil, hlen]
    omega

/-! ## C3: generated report numbers match FIR-\d\x7b4\x7d-\d\x7b6\x7d -/

theorem natToDecimal_lt10 (n : Nat) (h : n < 10) : natToDecimal n = [digitChar n] := by
  rw [natToDecimal]
  simp [h]

theorem natToDecimal_ge10 (n : Nat) (h : ¬n < 10) :
    natToDecimal n = natToDecimal (n / 10) ++ [digitChar (n % 10)] := by
  rw [natToDecimal]
  simp [h]

/-- A number in `[10 ^ k, 10 ^ (k + 1))` renders with exactly `k + 1`
decimal digits. -/
theorem natToDecimal_length_pow :
    ∀ k n, 10 ^ k ≤ n → n < 10 ^ (k + 1) → (natToDecimal n).length = k + 1 := by
  intro k
  induction k with
  | zero =>
      intro n _ h2
      rw [natToDecimal_lt10 n (by simpa using h2)]
      rfl
  | succ k ih =>
      intro n h1 h2
      have h10 : ¬n < 10 := by
        have : 10 ≤ 10 ^ (k + 1) := by
          calc 10 = 10 ^ 1 := (pow_one 10).symm
          _ ≤ 10 ^ (k + 1) := Nat.pow_le_pow_right (by omega) (by omega)
        omega
      rw [natToDecimal_ge10 n h10, List.length_append]
      have hlo : 10 ^ k ≤ n / 10 := by
        rw [Nat.le_div_iff_mul_le (by omega)]
        calc 10 ^ k * 10 = 10 ^ (k + 1) := (pow_succ 10 k).symm
        _ ≤ n := h1
      have hhi : n / 10 < 10 ^ (k + 1) := by
        rw [Nat.div_lt_iff_lt_mul (by omega)]
        calc n < 10 ^ (k + 2) := h2
        _ = 10 ^ (k + 1) * 10 := pow_succ 10 (k + 1)
      rw [ih (n / 10) hlo hhi]
      rfl

theorem digitChar_isDigit (d : Nat) (h : d < 10) : (digitChar d).isDigit = true := by
  interval_cases d <;> decide

theorem natToDecimal_digits (n : Nat) : ∀ c ∈ natToDecimal n, c.isDigit = true := by
  induction n using Nat.strong_induction_on with
  | _ n ih =>
      by_cases h : n < 10
      · rw [natToDecimal_lt10 n h]
        intro c hc
        rw [List.mem_singleton] at hc
        subst hc
        exact digitChar_isDigit n h
      · rw [natToDecimal_ge10 n h]
        intro c hc
        rcases List.mem_append.mp hc with hc | hc
        · exact ih (n / 10) (Nat.div_lt_self (by omega) (by omega)) c hc
        · rw [List.mem_singleton] at hc
          subst hc
          exact digitChar_isDigit _ (Nat.mod_lt n (by omega))

theorem isFirPattern_append (y r : List Char) (hy4 : y.length = 4)
    (hyd : ∀ c ∈ y, c.isDigit = true) (hr6 : r.length = 6)
    (hrd : ∀ c ∈ r, c.isDigit = true) :
    isFirPattern (('F' :: 'I' :: 'R' :: '-' :: y) ++ '-' :: r) = true := by
  rcases y with - | ⟨c1, - | ⟨c2, - | ⟨c3, - | ⟨c4, rest⟩⟩⟩⟩ <;> simp at hy4
  subst hy4
  simp only [List.cons_append, List.nil_append, isFirPattern, List.all_eq_true]
  simp [hyd c1 (by simp), hyd c2 (by simp), hyd c3 (by simp), hyd c4 (by simp), hr6]
  exact hrd

/-- The draft used in the spec's creation scenario. -/
def sampleDraft : InsertCriminalRecord :=
  { name := "John Doe", age := 30, gender := .male, crimeType := "theft" }

/-- C3: inserting a criminal-record draft that omits the report number
assigns the generated number `FIR-<year>-<100000 + rnd>`, which is
non-empty and matches `FIR-\d\x7b4\x7d-\d\x7b6\x7d` (for a 4-digit year
and `rnd = Math.floor(Math.random() * 900000) < 900000`); the assigned
number does not depend on the existing record set, so no uniqueness check
against existing records takes place. -/
theorem create_fir_number_c3 (s : StoreState) (draft : InsertCriminalRecord)
    (newId : String) (year rnd now : Nat)
    (hy1 : 1000 ≤ year) (hy2 : year < 10000) (hr : rnd < 900000)
    (hfn : draft.firNumber = none) :
    (createCriminalRecord s draft newId year rnd now).1.firNumber =
      some (generateFirNumber year rnd) ∧
    generateFirNumber year rnd ≠ "" ∧
    isFirPattern (generateFirNumber year rnd).data = true ∧
    (∀ s' : StoreState,
      (createCriminalRecord s' draft newId year rnd now).1.firNumber =
        (createCriminalRecord s draft newId year rnd now).1.firNumber) := by
  refine ⟨by simp [createCriminalRecord, hfn], ?_, ?_, fun s' => rfl⟩
  · intro h
    have := congrArg String.data h
    simp [generateFirNumber] at this
  · show isFirPattern (('F' :: 'I' :: 'R' :: '-' :: natToDecimal year) ++
      '-' :: natToDecimal (rnd + 100000)) = true
    refine isFirPattern_append _ _ ?_ (natToDecimal_digits year) ?_
      (natToDecimal_digits (rnd + 100000))
    · have := natToDecimal_length_pow 3 year (by omega) (by omega)
      omega
    · have := natToDecimal_length_pow 5 (rnd + 100000) (by omega) (by omega)
      omega

/-- Witness for C3 at the spec's scenario input. -/
theorem create_fir_number_c3_witness :
    (createCriminalRecord { criminals := [], firs := [] } sampleDraft "id1" 2026 123455 7).1.firNumber =
      some (generateFirNumber 2026 123455) ∧
    generateFirNumber 2026 123455 ≠ "" ∧
    isFirPattern (generateFirNumber 2026 123455).data = true := by
  have h := create_fir_number_c3 { criminals := [], firs := [] } sampleDraft "id1"
    2026 123455 7 (by omega) (by omega) (by omega) rfl
  exact ⟨h.1, h.2.1, h.2.2.1⟩

/-! ## C7: I/O failures versus not-found -/

/-- C7 counterexample: with the store holding the record `"c1"`, an update
(or delete) of `"c1"` that fails with a backend I/O error produces exactly
the same outcome as an update (or delete) of the unknown identifier
`"zzz"` — the catch-all `catch` collapses both to `undefined` / `false`,
so the two cases are not distinguishable, contrary to the claim. -/
theorem storage_failure_c7_counterexample :
    (updateCriminalRecord statsState "c1" {} 5 true).1 =
      (updateCriminalRecord statsState "zzz" {} 5 false).1 ∧
    (deleteCriminalRecord statsState "c1" true).1 =
      (deleteCriminalRecord statsState "zzz" false).1 := by
  exact ⟨by decide, by decide⟩

/-- C7 amended: a backend I/O failure during update or delete is reported
exactly like an unknown identifier — update returns the absent value and
delete returns `false` in both situations. -/
theorem storage_failure_c7_amended (s : StoreState) (id : String)
    (p : CriminalPatch) (now : Nat) :
    (updateCriminalRecord s id p now true).1 = none ∧
    (deleteCriminalRecord s id true).1 = false ∧
    (s.criminals.find? (fun c => c.id == id) = none →
      (updateCriminalRecord s id p now false).1 = none ∧
      (deleteCriminalRecord s id false).1 = false) := by
  refine ⟨rfl, rfl, fun hnone => ⟨?_, ?_⟩⟩
  · simp [updateCriminalRecord, hnone]
  · have hany : s.criminals.any (fun c => c.id == id) = false := by
      rw [List.any_eq_false]
      intro c hc
      simpa using List.find?_eq_none.mp hnone c hc
    simp [deleteCriminalRecord, hany]

/-- Witness for the amended C7 at a concrete store and identifier. -/
theorem storage_failure_c7_amended_witness :
    (updateCriminalRecord statsState "nobody" {} 5 true).1 = none ∧
    (deleteCriminalRecord statsState "nobody" true).1 = false ∧
    ((updateCriminalRecord statsState "nobody" {} 5 false).1 = none ∧
      (deleteCriminalRecord statsState "nobody" false).1 = false) := by
  have h := storage_failure_c7_amended statsState "nobody" {} 5
  exact ⟨h.1, h.2.1, h.2.2 (by decide)⟩

/-! ## C8: partial update merges fields and refreshes `updatedAt` -/

/-- C8: an update of an unknown identifier returns absent; an update of an
existing record returns it with each supplied patch field overwritten,
`updatedAt` overwritten with the current time, `id`, `createdAt` and every
unsupplied field unchanged; the empty patch changes only `updatedAt`. -/
theorem update_frame_c8 (s : StoreState) (id : String) (p : CriminalPatch) (now : Nat) :
    (s.criminals.find? (fun c => c.id == id) = none →
      (updateCriminalRecord s id p now false).1 = none) ∧
    (∀ r, s.criminals.find? (fun c => c.id == id) = some r →
      (updateCriminalRecord s id p now false).1 = some (applyPatch r p now) ∧
      (applyPatch r p now).updatedAt = now ∧
      (applyPatch r p now).id = r.id ∧
      (applyPatch r p now).createdAt = r.createdAt ∧
      (p.name = none → (applyPatch r p now).name = r.name) ∧
      (∀ v, p.name = some v → (applyPatch r p now).name = v) ∧
      (p.age = none → (applyPatch r p now).age = r.age) ∧
      (∀ v, p.age = some v → (applyPatch r p now).age = v) ∧
      (p.gender = none → (applyPatch r p now).gender = r.gender) ∧
      (∀ v, p.gender = some v → (applyPatch r p now).gender = v) ∧
      (p.crimeType = none → (applyPatch r p now).crimeType = r.crimeType) ∧
      (∀ v, p.crimeType = some v → (applyPatch r p now).crimeType = v) ∧
      (p.firNumber = none → (applyPatch r p now).firNumber = r.firNumber) ∧
      (∀ v, p.firNumber = some v → (applyPatch r p now).firNumber = v) ∧
      (p.caseStatus = none → (applyPatch r p now).caseStatus = r.caseStatus) ∧
      (∀ v, p.caseStatus = some v → (applyPatch r p now).caseStatus = v) ∧
      (p.arrestDate = none → (applyPatch r p now).arrestDate = r.arrestDate) ∧
      (∀ v, p.arrestDate = some v → (applyPatch r p now).arrestDate = v) ∧
      (p.address = none → (applyPatch r p now).address = r.address) ∧
      (∀ v, p.address = some v → (applyPatch r p now).address = v) ∧
      (p.photo = none → (applyPatch r p now).photo = r.photo) ∧
      (∀ v, p.photo = some v → (applyPatch r p now).photo = v) ∧
      applyPatch r {} now = { r with updatedAt := now }) := by
  refine ⟨fun hnone => by simp [updateCriminalRecord, hnone], fun r hr => ?_⟩
  refine ⟨by simp [updateCriminalRecord, hr], rfl, rfl, rfl,
    ?_, ?_, ?_, ?_, ?_, ?_, ?_, ?_, ?_, ?_, ?_, ?_, ?_, ?_, ?_, ?_, ?_, ?_, rfl⟩ <;>
    first
      | (intro h; simp [applyPatch, h])
      | (intro v h; simp [applyPatch, h])

/-- Witness for C8: updating record `"c1"` with the empty patch. -/
theorem update_frame_c8_witness :
    (updateCriminalRecord statsState "c1" {} 9 false).1 = some (applyPatch crimOpen {} 9) ∧
    applyPatch crimOpen {} 9 = { crimOpen with updatedAt := 9 } := by
  have h := (update_frame_c8 statsState "c1" {} 9).2 crimOpen (by decide)
  exact ⟨h.1, h.2.2.2.2.2.2.2.2.2.2.2.2.2.2.2.2.2.2.2.2.2.2⟩

/-! ## C9: deleting a criminal record nulls FIR back-references -/

theorem find?_map_idpreserving (g : FirRecord → FirRecord)
    (hg : ∀ a, (g a).id = a.id) :
    ∀ (l : List FirRecord) (f : FirRecord),
      (l.map (fun r => r.id)).Nodup → f ∈ l →
      (l.map g).find? (fun r => r.id == f.id) = some (g f) := by
  intro l
  induction l with
  | nil => intro f _ hf; cases hf
  | cons a t ih =>
      intro f hnd hf
      rw [List.map_cons] at hnd
      rcases List.mem_cons.mp hf with rfl | hft
      · have hb : ((g f).id == f.id) = true := by simp [hg f]
        simp [List.find?_cons, hb]
      · have hne : a.id ≠ f.id := by
          intro he
          exact (List.nodup_cons.mp hnd).1 (he ▸ List.mem_map_of_mem _ hft)
        have hb : ((g a).id == f.id) = false := by simp [hg a, hne]
        rw [List.map_cons, List.find?_cons, hb]
        exact ih f (List.nodup_cons.mp hnd).2 hft

/-- C9: deleting criminal `x` succeeds, no FIR record is deleted with it,
and every FIR record whose back-reference named `x` is afterwards
retrievable with `criminalId` absent and all its other fields unchanged. -/
theorem delete_nulls_fir_c9 (s : StoreState) (x : String) (f : FirRecord)
    (hnd : (s.firs.map (fun r => r.id)).Nodup)
    (hf : f ∈ s.firs) (hcid : f.criminalId = some x)
    (hx : s.criminals.any (fun c => c.id == x) = true) :
    (deleteCriminalRecord s x false).1 = true ∧
    ((deleteCriminalRecord s x false).2).firs.length = s.firs.length ∧
    getFirRecord (deleteCriminalRecord s x false).2 f.id =
      some { f with criminalId := none } := by
  have hs2 : (deleteCriminalRecord s x false).2.firs =
      s.firs.map (fun r =>
        if r.criminalId == some x then { r with criminalId := none } else r) := by
    simp [deleteCriminalRecord, hx]
  refine ⟨by simp [deleteCriminalRecord, hx], by rw [hs2, List.length_map], ?_⟩
  rw [getFirRecord, hs2]
  have hgid : ∀ a : FirRecord,
      ((if a.criminalId == some x then { a with criminalId := none } else a) : FirRecord).id
        = a.id := by
    intro a
    by_cases h : a.criminalId == some x <;> simp [h]
  have := find?_map_idpreserving _ hgid s.firs f hnd hf
  rw [this]
  simp [hcid]

/-- The FIR record of the spec's deletion scenario, referencing `"c1"`. -/
def firSample : FirRecord :=
  { id := "f1", firNumber := "FIR-2024-001001", criminalId := some "c1"
    firDate := 1, description := "Theft of electronic devices", createdAt := 1, updatedAt := 1 }

def c9State : StoreState := { criminals := [crimOpen], firs := [firSample] }

/-- Witness for C9 at the spec's scenario. -/
theorem delete_nulls_fir_c9_witness :
    (deleteCriminalRecord c9State "c1" false).1 = true ∧
    ((deleteCriminalRecord c9State "c1" false).2).firs.length = c9State.firs.length ∧
    getFirRecord (deleteCriminalRecord c9State "c1" false).2 firSample.id =
      some { firSample with criminalId := none } :=
  delete_nulls_fir_c9 c9State "c1" firSample (by decide) (by decide) rfl (by decide)

end CriminalManagement
